import Mathlib

/-!
Shallow embedding of the rsanju invoicing application (src/app.py) and proofs
of the specified properties.  Python dicts holding the persisted document are
modelled as Lean structures, Python floats as rationals (every arithmetic fact
proved here is independent of rounding), wall-clock time is passed explicitly,
and the backing JSON file is modelled as a state that either is missing, is
corrupt, or holds a serialized document.
-/

namespace RSanju

/-! ### String primitives

Structurally recursive models of the Python string operations the app uses
(`str.strip`, `str.split` on a one-character separator, `str.upper`), defined
on the character list so that every definition below evaluates by kernel
reduction. -/

/-- Models Python `str.strip()`: removes leading and trailing whitespace. -/
def pyStrip (s : String) : String :=
  String.mk (((s.data.dropWhile Char.isWhitespace).reverse.dropWhile
    Char.isWhitespace).reverse)

/-- Splitting a character list on a separator character, Python style: the
result always has one more part than there are separators, so splitting the
empty list yields one empty part. -/
def splitCharList (sep : Char) : List Char → List (List Char)
  | [] => [[]]
  | c :: rest =>
    match splitCharList sep rest with
    | [] => [[]]
    | h :: t => if c == sep then [] :: h :: t else (c :: h) :: t

/-- Models Python `s.split(sep)` for a one-character separator. -/
def pySplit (s : String) (sep : Char) : List String :=
  (splitCharList sep s.data).map String.mk

/-- Models Python `str.upper()` on the ASCII strings the app compares. -/
def pyUpper (s : String) : String :=
  String.mk (s.data.map Char.toUpper)

/-- The numeric value of a list of decimal digit characters. -/
def digitsToNat (l : List Char) : Nat :=
  l.foldl (fun acc c => acc * 10 + (c.toNat - 48)) 0

/-- Is the string a non-empty run of decimal digits? -/
def allDigits (s : String) : Bool :=
  !s.data.isEmpty && s.data.all Char.isDigit

/-! ### Calendar dates and the date/number parsers used by the app -/

/-- A calendar date as produced by Python's `datetime.date`. -/
structure Date where
  year : Nat
  month : Nat
  day : Nat
deriving DecidableEq, Repr

def isLeapYear (y : Nat) : Bool :=
  (y % 4 == 0 && y % 100 != 0) || y % 400 == 0

def daysInMonth (y m : Nat) : Nat :=
  if m == 2 then (if isLeapYear y then 29 else 28)
  else if m == 4 || m == 6 || m == 9 || m == 11 then 30
  else 31

def Date.valid (d : Date) : Bool :=
  1 ≤ d.month && d.month ≤ 12 && 1 ≤ d.day && d.day ≤ daysInMonth d.year d.month

/-- Models `datetime.strptime(s, "%Y-%m-%d").date()` (app.py lines 338, 350,
360, 369): the string must consist of three dash-separated decimal components
forming a valid calendar date, otherwise the parse fails (`none` stands for
the raised `ValueError`). -/
def parseDate (s : String) : Option Date :=
  match pySplit s '-' with
  | [ys, ms, ds] =>
    if allDigits ys && allDigits ms && allDigits ds then
      let d : Date := ⟨digitsToNat ys.data, digitsToNat ms.data, digitsToNat ds.data⟩
      if d.valid then some d else none
    else none
  | _ => none

/-- Models `int(s)` on a component of `selected_month.split("-")` (app.py line
330): optional surrounding blanks and a leading plus sign, then decimal digits
(a minus sign cannot survive the split). -/
def parsePyInt (s : String) : Option Nat :=
  let t := (pyStrip s).data
  let t2 :=
    match t with
    | c :: rest => if c == '+' then rest else t
    | [] => t
  if !t2.isEmpty && t2.all Char.isDigit then some (digitsToNat t2) else none

/-- Models `year, month = map(int, selected_month.split("-"))` (app.py line
330); any failure (wrong number of components or a non-integer component)
raises `ValueError`, modelled as `none`. -/
def parseYM (s : String) : Option (Nat × Nat) :=
  match pySplit s '-' with
  | [ys, ms] =>
    match parsePyInt ys, parsePyInt ms with
    | some y, some m => some (y, m)
    | _, _ => none
  | _ => none

/-- Models Python `float(s)` on plain decimal literals (an optional sign, an
integer part and an optional fractional part); `none` stands for the raised
`ValueError`.  The invariants proved below hold whatever value a successful
parse returns. -/
def parseFloat (s : String) : Option ℚ :=
  let t := (pyStrip s).data
  let sp : ℚ × List Char :=
    match t with
    | c :: rest =>
      if c == '-' then (-1, rest) else if c == '+' then (1, rest) else (1, t)
    | [] => (1, t)
  match splitCharList '.' sp.2 with
  | [intPart, fracPart] =>
    if intPart.all Char.isDigit && fracPart.all Char.isDigit
        && intPart.length + fracPart.length > 0 then
      some (sp.1 * ((digitsToNat intPart : ℚ)
        + (digitsToNat fracPart : ℚ) / (10 ^ fracPart.length)))
    else none
  | [intPart] =>
    if !intPart.isEmpty && intPart.all Char.isDigit then
      some (sp.1 * (digitsToNat intPart : ℚ))
    else none
  | _ => none

/-- Models `float(s or 0)` (app.py lines 132-133, 149, 153, 289): an empty
(falsy) string coerces `0` and otherwise the string is parsed. -/
def pyFloatOrZero (s : String) : Option ℚ :=
  if s == "" then some 0 else parseFloat s

/-- Zero-padding to two digits, as in the format `%02d` or `strftime` fields. -/
def pad2 (n : Nat) : String :=
  if n < 10 then "0" ++ toString n else toString n

/-- Zero-padding to at least four digits, as in the format `%04d` (and the
`strftime` year field `%Y`). -/
def pad4 (n : Nat) : String :=
  let s := toString n
  String.mk (List.replicate (4 - s.length) '0') ++ s

/-- Models `d.strftime("%Y-%m-%d")`. -/
def formatDate (d : Date) : String :=
  pad4 d.year ++ "-" ++ pad2 d.month ++ "-" ++ pad2 d.day

/-! ### The data model (section 3 of the spec, mirroring the JSON document) -/

structure LineItem where
  description : String
  quantity : ℚ
  unit_price : ℚ
  line_total : ℚ
deriving DecidableEq, Repr

structure Invoice where
  id : String
  invoice_number : String
  created_at : String
  invoice_date : String
  customer_name : String
  customer_phone : String
  customer_address : String
  customer_gstin : String
  items : List LineItem
  subtotal : ℚ
  discount : ℚ
  tax : ℚ
  total : ℚ
  payment_mode : Option String
  payment_reference : String
  notes : String
deriving DecidableEq, Repr

structure Expense where
  id : String
  date : String
  description : String
  category : String
  amount : ℚ
deriving DecidableEq, Repr

/-- A stored settings record is a JSON object, modelled as an association
list so that Python dict truthiness (empty dict is falsy) is preserved. -/
abbrev SettingsRecord := List (String × String)

/-- A document as read back from the JSON file: the `expenses` key may be
absent (`none`) in older data files (app.py lines 30-31). -/
structure RawDocument where
  store_settings : Option SettingsRecord
  invoices : List Invoice
  invoice_counter : Nat
  expenses : Option (List Expense)
deriving DecidableEq, Repr

/-! ### Store: load/save with corruption fallback (app.py lines 17-36) -/

/-- The backing file `data.json`: missing, unparsable, or holding a document.
The JSON library itself is an external collaborator; a stored document
deserializes to the value that was serialized. -/
inductive FileState where
  | missing : FileState
  | corrupt : FileState
  | stored : RawDocument → FileState
deriving DecidableEq, Repr

/-- The fallback document built at app.py line 25. -/
def emptyRaw : RawDocument :=
  { store_settings := none, invoices := [], invoice_counter := 0, expenses := some [] }

/-- Models `_load_data` (app.py lines 17-25): a missing or corrupt file falls
back to the empty structure, never raising. -/
def load_data : FileState → RawDocument
  | FileState.missing => emptyRaw
  | FileState.corrupt => emptyRaw
  | FileState.stored raw => raw

/-- Models `_save_data` (app.py lines 34-36): the file is overwritten with the
full document. -/
def save_data (d : RawDocument) : FileState :=
  FileState.stored d

/-- Models the startup fixup at app.py lines 30-31: an absent `expenses` key
is initialized to an empty list. -/
def ensureExpenses (d : RawDocument) : RawDocument :=
  if d.expenses.isSome then d else { d with expenses := some [] }

/-- The in-memory document at startup: `_data = _load_data()` followed by the
`expenses` fixup (app.py lines 28-31). -/
def initData (fs : FileState) : RawDocument :=
  ensureExpenses (load_data fs)

/-! ### Settings repository (app.py lines 42-58) -/

/-- The hardcoded default returned when nothing truthy is stored (app.py
lines 47-53). -/
def defaultStoreSettings : SettingsRecord :=
  [("store_name", "R Sanju Store"), ("address", ""), ("phone", ""),
   ("email", ""), ("logo_url", "")]

/-- Models `get_store_settings` (app.py lines 42-53): the stored record is
returned only when it is truthy (present and a non-empty dict); otherwise the
hardcoded default is returned. -/
def get_store_settings (stored : Option SettingsRecord) : SettingsRecord :=
  match stored with
  | some s => if s.isEmpty then defaultStoreSettings else s
  | none => defaultStoreSettings

/-! ### Sequence generator (app.py lines 61-69) -/

/-- Models `generate_invoice_number`: the counter is read, incremented by one
and stored back, and the returned string is formatted from the wall-clock year
and the new counter value with `f"RS-{year}-{new_value:04d}"`.  The first
component is the new counter (the state written back and persisted), the
second the returned string. -/
def generate_invoice_number (counter : Nat) (year : Nat) : Nat × String :=
  let new_value := counter + 1
  (new_value, "RS-" ++ toString year ++ "-" ++ pad4 new_value)

/-! ### Invoice creation (app.py lines 109-197) -/

/-- Models the coercion in the `try` block at app.py lines 131-136: if either
`float` call raises `ValueError`, both quantity and price become `0.0` (the
price is never evaluated once the quantity fails). -/
def coerceQtyPrice (qtyStr priceStr : String) : ℚ × ℚ :=
  match pyFloatOrZero qtyStr, pyFloatOrZero priceStr with
  | some q, some p => (q, p)
  | _, _ => (0, 0)

/-- The stored line item built from one submitted row (app.py lines 137-146). -/
def rowItem (r : String × String × String) : LineItem :=
  let qp := coerceQtyPrice r.2.1 r.2.2
  { description := pyStrip r.1, quantity := qp.1, unit_price := qp.2,
    line_total := qp.1 * qp.2 }

/-- Models the item loop at app.py lines 125-146: rows whose trimmed
description is empty are skipped, the rest contribute a line item and add
`quantity * unit_price` to the running subtotal.  Returns the item list and
the subtotal. -/
def buildItems : List (String × String × String) → List LineItem × ℚ
  | [] => ([], 0)
  | r :: rest =>
    if pyStrip r.1 == "" then buildItems rest
    else
      let it := rowItem r
      let p := buildItems rest
      (it :: p.1, it.line_total + p.2)

/-- Models `zip(descriptions, quantities, unit_prices)` (app.py line 128):
truncation to the shortest list. -/
def zipRows (descriptions quantities unit_prices : List String) :
    List (String × String × String) :=
  descriptions.zip (quantities.zip unit_prices)

/-- The submitted form fields consumed by the POST branch of `new_invoice`;
absent optional fields are the empty string (Python `form.get` defaults),
except `payment_mode` which is stored as read (possibly `None`). -/
structure InvoiceForm where
  invoice_date : String
  item_descriptions : List String
  item_quantities : List String
  item_unit_prices : List String
  discount : String
  tax : String
  payment_mode : Option String
  payment_reference : String
  notes : String
  customer_name : String
  customer_phone : String
  customer_address : String
  customer_gstin : String
deriving Repr

/-- Models the POST branch of `new_invoice` (app.py lines 113-194): builds the
items and totals, allocates the id as `str(len(invoices) + 1)`, allocates the
invoice number via the sequence generator, appends and persists.  Wall-clock
inputs (`created_at` timestamp, `today` date string, current `year`) are
explicit.  Returns the new invoice list, the new counter, and the stored
invoice. -/
def new_invoice (form : InvoiceForm) (created_at today_str : String)
    (year : Nat) (invoices : List Invoice) (counter : Nat) :
    List Invoice × Nat × Invoice :=
  let invoice_date := if form.invoice_date == "" then today_str else form.invoice_date
  let gen := generate_invoice_number counter year
  let bi := buildItems (zipRows form.item_descriptions form.item_quantities
    form.item_unit_prices)
  let discount := (pyFloatOrZero form.discount).getD 0
  let tax := (pyFloatOrZero form.tax).getD 0
  let total := bi.2 - discount + tax
  let inv : Invoice :=
    { id := toString (invoices.length + 1),
      invoice_number := gen.2,
      created_at := created_at,
      invoice_date := invoice_date,
      customer_name := pyStrip form.customer_name,
      customer_phone := pyStrip form.customer_phone,
      customer_address := pyStrip form.customer_address,
      customer_gstin := pyStrip form.customer_gstin,
      items := bi.1,
      subtotal := bi.2,
      discount := discount,
      tax := tax,
      total := total,
      payment_mode := form.payment_mode,
      payment_reference := pyStrip form.payment_reference,
      notes := pyStrip form.notes }
  (invoices ++ [inv], gen.1, inv)

/-! ### Invoice deletion (app.py lines 212-229) -/

/-- Models `delete_invoice`: scan for the first invoice whose `id` matches,
remove it if found.  The boolean records whether a removal happened, which in
the source is exactly the branch where `_save_data()` runs (lines 222-227). -/
def delete_invoice : List Invoice → String → List Invoice × Bool
  | [], _ => ([], false)
  | inv :: rest, iid =>
    if inv.id == iid then (rest, true)
    else
      let p := delete_invoice rest iid
      (inv :: p.1, p.2)

/-! ### CREDIT to CASH conversion (app.py lines 232-259) -/

/-- The three outcomes of `convert_credit_to_cash`: the target id is absent,
the invoice is not in CREDIT mode (rejected precondition), or the conversion
happened. -/
inductive ConvertOutcome where
  | notFound : ConvertOutcome
  | invalidState : ConvertOutcome
  | converted : ConvertOutcome
deriving DecidableEq, Repr

/-- Replace the first invoice whose `id` matches (the Python code mutates the
dict found by `next(...)`, which is the first match in the list). -/
def replaceFirst : List Invoice → String → Invoice → List Invoice
  | [], _, _ => []
  | inv :: rest, iid, inv2 =>
    if inv.id == iid then inv2 :: rest
    else inv :: replaceFirst rest iid inv2

/-- The marker line appended on conversion (app.py line 250). -/
def conversionNote (timestamp : String) : String :=
  "[Converted from CREDIT to CASH on " ++ timestamp ++ "]"

/-- Models `convert_credit_to_cash` (app.py lines 232-259): first match by id;
not found is one outcome; a payment mode whose uppercasing is not "CREDIT"
(a missing mode reads as "") is a distinct rejected outcome leaving the list
untouched; otherwise the mode becomes "CASH" and the conversion note is
appended to the **stripped** existing notes, newline-separated when the
stripped notes are non-empty.  The wall-clock timestamp is explicit. -/
def convert_credit_to_cash (invoices : List Invoice) (iid : String)
    (timestamp : String) : ConvertOutcome × List Invoice :=
  match invoices.find? (fun inv => inv.id == iid) with
  | none => (ConvertOutcome.notFound, invoices)
  | some inv =>
    if pyUpper (inv.payment_mode.getD "") == "CREDIT" then
      let existing := pyStrip inv.notes
      let newNotes :=
        if existing == "" then conversionNote timestamp
        else existing ++ "\n" ++ conversionNote timestamp
      let inv2 := { inv with payment_mode := some "CASH", notes := newNotes }
      (ConvertOutcome.converted, replaceFirst invoices iid inv2)
    else (ConvertOutcome.invalidState, invoices)

/-! ### Reports (app.py lines 314-424) -/

/-- The effective date string of an invoice: `invoice_date` when truthy, else
the date part of `created_at` (app.py lines 336, 367). -/
def effective_date_str (inv : Invoice) : String :=
  if inv.invoice_date == "" then ((pySplit inv.created_at ' ').headD "")
  else inv.invoice_date

/-- Does a date string parse to a date inside the given year and month
(app.py lines 337-341)?  A failed parse means `false` (the row is skipped). -/
def inMonth (s : String) (y m : Nat) : Bool :=
  match parseDate s with
  | none => false
  | some d => d.year == y && d.month == m

/-- The monthly invoice filter (app.py lines 334-342). -/
def monthlyInvFilter (invoices : List Invoice) (y m : Nat) : List Invoice :=
  invoices.filter (fun inv => inMonth (effective_date_str inv) y m)

/-- The monthly expense filter (app.py lines 344-354): a falsy date string is
skipped, then the same parse-and-compare as for invoices. -/
def monthlyExpFilter (expenses : List Expense) (y m : Nat) : List Expense :=
  expenses.filter (fun e => if e.date == "" then false else inMonth e.date y m)

/-- The daily invoice filter (app.py lines 365-373): the effective date must
parse and equal the target date. -/
def dailyInvFilter (invoices : List Invoice) (d : Date) : List Invoice :=
  invoices.filter (fun inv =>
    match parseDate (effective_date_str inv) with
    | none => false
    | some d2 => d2 == d)

/-- Models the two-decimal fixed formatting `%.2f` used in the narrative, on
rationals (rounding half up; the narrative claims proved below do not depend
on the rounding direction). -/
def formatFixed2 (q : ℚ) : String :=
  let sign := if q < 0 then "-" else ""
  let cents := (Int.floor (|q| * 100 + 1 / 2)).toNat
  sign ++ toString (cents / 100) ++ "." ++ pad2 (cents % 100)

/-- The templated narrative sentence (app.py lines 395-399) up to and
excluding the recommendation. -/
def summarySentence (label : String) (sales : ℚ) (invCount : Nat)
    (expTotal : ℚ) (trend : String) (net : ℚ) : String :=
  "AI summary: For " ++ label ++ ", total sales are Rs. " ++ formatFixed2 sales
    ++ " across " ++ toString invCount ++ " invoice(s), with expenses of Rs. "
    ++ formatFixed2 expTotal ++ ". The period is " ++ trend
    ++ " with a net of Rs. " ++ formatFixed2 net ++ ". "

/-- The fixed recommendation sentence chosen by whether any expenses were
recorded (app.py lines 400-403). -/
def recommendationSentence (expenses_total : ℚ) : String :=
  if 0 < expenses_total then
    "Consider reviewing infrastructure and operational costs to optimize profit."
  else
    "No expenses recorded, so all sales are currently counted as profit."

structure Report where
  label : String
  sales_total : ℚ
  expenses_total : ℚ
  net_total : ℚ
  invoice_count : Nat
  expense_count : Nat
  invoices : List Invoice
  expenses : List Expense
  ai_summary : String
deriving Repr

/-- Models the aggregation and narrative generation over the already filtered
sets (app.py lines 378-415).  Stored totals are rationals, so
`float(x or 0)` coincides with the value itself. -/
def buildReport (label : String) (inv_filtered : List Invoice)
    (exp_filtered : List Expense) : Report :=
  let sales_total := (inv_filtered.map Invoice.total).sum
  let expenses_total := (exp_filtered.map Expense.amount).sum
  let net_total := sales_total - expenses_total
  let invoice_count := inv_filtered.length
  let expense_count := exp_filtered.length
  let ai_summary :=
    if invoice_count == 0 && expense_count == 0 then
      "No financial activity recorded for this period."
    else
      let trend :=
        if 0 < net_total then "profitable"
        else if net_total < 0 then "loss-making"
        else "balanced"
      summarySentence label sales_total invoice_count expenses_total trend
        net_total ++ recommendationSentence expenses_total
  { label := label, sales_total := sales_total, expenses_total := expenses_total,
    net_total := net_total, invoice_count := invoice_count,
    expense_count := expense_count, invoices := inv_filtered,
    expenses := exp_filtered, ai_summary := ai_summary }

/-- What the `reports` view hands back to the template (app.py lines
417-424): the report plus the echoed period, date and month. -/
structure ReportsView where
  report : Report
  period : String
  selected_date : String
  selected_month : String
deriving Repr

/-- Models `request.args.get(k) or dflt`: a missing or empty (falsy) argument
yields the default. -/
def orDefault (o : Option String) (dflt : String) : String :=
  match o with
  | none => dflt
  | some s => if s == "" then dflt else s

/-- Models the `reports` view (app.py lines 314-424).  Wall-clock time enters
as `todayD`; the query-string arguments may be absent.  In the monthly branch
a parse failure of `selected_month` substitutes the current year and month for
filtering and for the label, but `selected_month` itself is passed back to the
template unchanged; in the daily branch a parse failure substitutes today and
overwrites `selected_date` before it is echoed back (app.py lines 362-363). -/
def reports (invoices : List Invoice) (expenses : List Expense) (todayD : Date)
    (argPeriod argDate argMonth : Option String) : ReportsView :=
  let today_str := formatDate todayD
  let current_month_str := pad4 todayD.year ++ "-" ++ pad2 todayD.month
  let period := orDefault argPeriod "daily"
  let selected_date := orDefault argDate today_str
  let selected_month := orDefault argMonth current_month_str
  if period == "monthly" then
    let ym := (parseYM selected_month).getD (todayD.year, todayD.month)
    let label := toString ym.1 ++ "-" ++ pad2 ym.2 ++ " (Monthly)"
    { report := buildReport label (monthlyInvFilter invoices ym.1 ym.2)
        (monthlyExpFilter expenses ym.1 ym.2),
      period := period, selected_date := selected_date,
      selected_month := selected_month }
  else
    let pr :=
      match parseDate selected_date with
      | some d => (d, selected_date)
      | none => (todayD, formatDate todayD)
    let label := pr.2 ++ " (Daily)"
    { report := buildReport label (dailyInvFilter invoices pr.1)
        (expenses.filter (fun e => e.date == pr.2)),
      period := period, selected_date := pr.2,
      selected_month := selected_month }

/-! ### Helper lemmas -/

/-- Exact length of the decimal digit list produced by the core numeral
printer, given sufficient fuel. -/
theorem toDigitsCore_length_exact (b : Nat) (hb : 2 ≤ b) :
    ∀ (f n : Nat) (acc : List Char), n < f →
      (Nat.toDigitsCore b f n acc).length = Nat.log b n + 1 + acc.length := by
  intro f
  induction f with
  | zero => intro n acc h; exact absurd h (Nat.not_lt_zero n)
  | succ fuel ih =>
    intro n acc h
    simp only [Nat.toDigitsCore]
    by_cases hz : n / b = 0
    · have hnb : n < b := (Nat.div_eq_zero_iff (by omega)).mp hz
      have hlog : Nat.log b n = 0 := Nat.log_eq_zero_iff.mpr (Or.inl hnb)
      simp [hz, hlog]
      omega
    · have hbn : b ≤ n := by
        by_contra hcon
        exact hz ((Nat.div_eq_zero_iff (by omega)).mpr (by omega))
      have hdivlt : n / b < fuel := by
        have h1 : n / b < n := Nat.div_lt_self (by omega) (by omega)
        omega
      have := ih (n / b) (Nat.digitChar (n % b) :: acc) hdivlt
      simp only [if_neg hz, this, List.length_cons]
      have hpos : 0 < Nat.log b n := Nat.log_pos (by omega) hbn
      have hdivlog : Nat.log b (n / b) = Nat.log b n - 1 := Nat.log_div_base b n
      omega

/-- A natural number between 1000 and 9999 prints as exactly four characters. -/
theorem toString_length_four (y : Nat) (h1 : 1000 ≤ y) (h2 : y ≤ 9999) :
    (toString y).length = 4 := by
  have hlog : Nat.log 10 y = 3 :=
    Nat.log_eq_of_pow_le_of_lt_pow (by norm_num; omega) (by norm_num; omega)
  have hcore := toDigitsCore_length_exact 10 (by norm_num) (y + 1) y []
    (Nat.lt_succ_self y)
  have hrepr : (toString y).length = (Nat.toDigitsCore 10 (y + 1) y []).length := rfl
  rw [hrepr, hcore, hlog]
  rfl

/-- The `%04d` padding yields at least four characters. -/
theorem pad4_length_ge (n : Nat) : 4 ≤ (pad4 n).length := by
  have h : (pad4 n).length
      = (List.replicate (4 - (toString n).length) '0').length + (toString n).length := by
    simp only [pad4, String.length_append, String.length_mk]
  rw [h, List.length_replicate]
  omega

/-! ### C4: the sequence generator -/

/-- C4: each call to the sequence generator turns counter `c` into exactly
`c + 1` (never decremented or reset), successive calls within the same year
produce strictly increasing numeric suffixes, and the returned string is
`RS-` followed by the four-digit year, a dash, and the counter zero-padded to
at least four digits. -/
theorem C4_sequence_generator (c y : Nat) (h1 : 1000 ≤ y) (h2 : y ≤ 9999) :
    (generate_invoice_number c y).1 = c + 1 ∧
    c < (generate_invoice_number c y).1 ∧
    (generate_invoice_number (generate_invoice_number c y).1 y).1
      = (generate_invoice_number c y).1 + 1 ∧
    (generate_invoice_number c y).2
      = "RS-" ++ toString y ++ "-" ++ pad4 (c + 1) ∧
    (toString y).length = 4 ∧
    4 ≤ (pad4 (c + 1)).length := by
  refine ⟨rfl, Nat.lt_succ_self c, rfl, rfl, toString_length_four y h1 h2,
    pad4_length_ge (c + 1)⟩

/-- Concrete check of C4 at counter 0 in year 2024. -/
theorem C4_sequence_generator_witness :
    (generate_invoice_number 0 2024).1 = 0 + 1 ∧
    (generate_invoice_number 0 2024).2 = "RS-" ++ toString 2024 ++ "-" ++ pad4 (0 + 1) ∧
    (toString 2024).length = 4 := by
  have h := C4_sequence_generator 0 2024 (by norm_num) (by norm_num)
  exact ⟨h.1, h.2.2.2.1, h.2.2.2.2.1⟩

/-! ### C9: store round-trip and fallback -/

/-- C9: saving a document and loading it back reproduces the document
field-for-field; a missing or unparsable backing file loads as the
empty-default document (null settings, no invoices, counter 0, empty
expenses) without raising; and a loaded document missing the `expenses`
field has it initialized to an empty collection at startup. -/
theorem C9_store_roundtrip (d : RawDocument) :
    load_data (save_data d) = d ∧
    load_data FileState.missing = emptyRaw ∧
    load_data FileState.corrupt = emptyRaw ∧
    (emptyRaw.store_settings = none ∧ emptyRaw.invoices = [] ∧
      emptyRaw.invoice_counter = 0 ∧ emptyRaw.expenses = some []) ∧
    (∀ raw : RawDocument, raw.expenses = none →
      initData (FileState.stored raw) = { raw with expenses := some [] }) := by
  refine ⟨rfl, rfl, rfl, ⟨rfl, rfl, rfl, rfl⟩, ?_⟩
  intro raw h
  simp [initData, load_data, ensureExpenses, h]

/-- Concrete check of C9: round-trip of a document, and the expenses fixup on
a document stored without the expenses field. -/
theorem C9_store_roundtrip_witness :
    load_data (save_data emptyRaw) = emptyRaw ∧
    initData (FileState.stored
        { store_settings := none, invoices := [], invoice_counter := 7,
          expenses := none })
      = { store_settings := none, invoices := [], invoice_counter := 7,
          expenses := some [] } := by
  have h := C9_store_roundtrip emptyRaw
  exact ⟨h.1, h.2.2.2.2 _ rfl⟩

/-! ### C10: settings truthiness -/

/-- C10: the settings getter returns the hardcoded default not only when
nothing was stored but whenever the stored record is falsy (in particular a
stored empty record), and returns any truthy stored record unchanged. -/
theorem C10_settings_truthiness :
    get_store_settings none = defaultStoreSettings ∧
    get_store_settings (some []) = defaultStoreSettings ∧
    (∀ s : SettingsRecord, s ≠ [] → get_store_settings (some s) = s) ∧
    defaultStoreSettings =
      [("store_name", "R Sanju Store"), ("address", ""), ("phone", ""),
       ("email", ""), ("logo_url", "")] := by
  refine ⟨rfl, rfl, ?_, rfl⟩
  intro s h
  cases s with
  | nil => exact absurd rfl h
  | cons a t => rfl

/-- Concrete check of C10 on a truthy one-field stored record. -/
theorem C10_settings_truthiness_witness :
    get_store_settings (some [("store_name", "X")]) = [("store_name", "X")] := by
  exact C10_settings_truthiness.2.2.1 [("store_name", "X")] (by simp)

/-! ### C2, C3: invoice creation invariants -/

/-- The subtotal accumulated by the item loop is the sum of the stored
line totals. -/
theorem buildItems_subtotal (rows : List (String × String × String)) :
    (buildItems rows).2 = ((buildItems rows).1.map LineItem.line_total).sum := by
  induction rows with
  | nil => simp [buildItems]
  | cons r rest ih =>
    simp only [buildItems]
    split
    · exact ih
    · simp [ih]

/-- The stored item list is exactly the non-blank rows, in submission order,
each mapped to its line item. -/
theorem buildItems_items (rows : List (String × String × String)) :
    (buildItems rows).1
      = (rows.filter (fun r => !(pyStrip r.1 == ""))).map rowItem := by
  induction rows with
  | nil => rfl
  | cons r rest ih =>
    cases h : (pyStrip r.1 == "") with
    | true => simp [buildItems, List.filter_cons, h, ih]
    | false => simp [buildItems, List.filter_cons, h, ih]

/-- Every stored line item records `quantity * unit_price` as its line
total. -/
theorem buildItems_lineTotal (rows : List (String × String × String)) :
    ∀ it ∈ (buildItems rows).1, it.line_total = it.quantity * it.unit_price := by
  intro it hit
  rw [buildItems_items] at hit
  simp only [List.mem_map] at hit
  obtain ⟨r, _, rfl⟩ := hit
  rfl

/-- C2: every created invoice satisfies `total = subtotal - discount + tax`,
its subtotal is the sum of the stored line totals, and every stored line item
satisfies `line_total = quantity * unit_price`. -/
theorem C2_invoice_totals (form : InvoiceForm) (created_at today_str : String)
    (year : Nat) (invoices : List Invoice) (counter : Nat) :
    let inv := (new_invoice form created_at today_str year invoices counter).2.2
    inv.total = inv.subtotal - inv.discount + inv.tax ∧
    inv.subtotal = (inv.items.map LineItem.line_total).sum ∧
    ∀ it ∈ inv.items, it.line_total = it.quantity * it.unit_price := by
  intro inv
  refine ⟨rfl, ?_, ?_⟩
  · exact buildItems_subtotal
      (zipRows form.item_descriptions form.item_quantities form.item_unit_prices)
  · exact buildItems_lineTotal
      (zipRows form.item_descriptions form.item_quantities form.item_unit_prices)

/-- Concrete check of C2 on a two-row submission with a malformed quantity
(the first stored item is the one built from the first row, and its recorded
line total is its quantity times its unit price). -/
theorem C2_invoice_totals_witness :
    let form : InvoiceForm :=
      { invoice_date := "2024-05-17",
        item_descriptions := ["apple", "pen"],
        item_quantities := ["2", "x"],
        item_unit_prices := ["3.5", "4"],
        discount := "1", tax := "0.5", payment_mode := some "CASH",
        payment_reference := "", notes := "", customer_name := "A",
        customer_phone := "", customer_address := "", customer_gstin := "" }
    let inv := (new_invoice form "2024-05-17 10:00:00" "2024-05-17" 2024 [] 0).2.2
    inv.total = inv.subtotal - inv.discount + inv.tax ∧
    inv.subtotal = (inv.items.map LineItem.line_total).sum ∧
    (rowItem ("apple", "2", "3.5")).line_total
      = (rowItem ("apple", "2", "3.5")).quantity
        * (rowItem ("apple", "2", "3.5")).unit_price := by
  intro form inv
  have h := C2_invoice_totals form "2024-05-17 10:00:00" "2024-05-17" 2024 [] 0
  exact ⟨h.1, h.2.1, h.2.2 (rowItem ("apple", "2", "3.5")) (List.Mem.head _)⟩

/-- C3: a submitted row whose trimmed description is empty is dropped
entirely (the stored items are exactly the non-blank rows in submission
order, every stored item has a non-blank description) and the subtotal counts
only the stored items. -/
theorem C3_blank_rows_dropped (form : InvoiceForm)
    (created_at today_str : String) (year : Nat) (invoices : List Invoice)
    (counter : Nat) :
    let inv := (new_invoice form created_at today_str year invoices counter).2.2
    let rows := zipRows form.item_descriptions form.item_quantities
      form.item_unit_prices
    inv.items = (rows.filter (fun r => !(pyStrip r.1 == ""))).map rowItem ∧
    (∀ it ∈ inv.items, it.description ≠ "") ∧
    inv.subtotal = (inv.items.map LineItem.line_total).sum := by
  intro inv rows
  refine ⟨buildItems_items rows, ?_, buildItems_subtotal rows⟩
  intro it hit
  have h := buildItems_items rows
  rw [show inv.items = (buildItems rows).1 from rfl, h] at hit
  simp only [List.mem_map, List.mem_filter] at hit
  obtain ⟨r, ⟨_, hr⟩, rfl⟩ := hit
  simpa [rowItem] using hr

/-- Concrete check of C3: a blank-description row between two kept rows is
dropped from items and subtotal. -/
theorem C3_blank_rows_dropped_witness :
    let form : InvoiceForm :=
      { invoice_date := "",
        item_descriptions := ["a", "   ", "b"],
        item_quantities := ["1", "100", "2"],
        item_unit_prices := ["5", "100", "3"],
        discount := "", tax := "", payment_mode := none,
        payment_reference := "", notes := "", customer_name := "",
        customer_phone := "", customer_address := "", customer_gstin := "" }
    let inv := (new_invoice form "2024-05-17 10:00:00" "2024-05-17" 2024 [] 0).2.2
    inv.items
      = ((zipRows ["a", "   ", "b"] ["1", "100", "2"] ["5", "100", "3"]).filter
          (fun r => !(pyStrip r.1 == ""))).map rowItem ∧
    (zipRows ["a", "   ", "b"] ["1", "100", "2"] ["5", "100", "3"]).filter
        (fun r => !(pyStrip r.1 == ""))
      = [("a", "1", "5"), ("b", "2", "3")] ∧
    (∀ it ∈ inv.items, it.description ≠ "") ∧
    (rowItem ("a", "1", "5")).description ≠ "" := by
  intro form inv
  have h := C3_blank_rows_dropped form "2024-05-17 10:00:00" "2024-05-17" 2024 [] 0
  exact ⟨h.1, by decide, h.2.1, h.2.1 (rowItem ("a", "1", "5")) (List.Mem.head _)⟩

/-! ### C5, C6: conversion and deletion -/

/-- A sample invoice used in concrete checks. -/
def sampleInvoice : Invoice :=
  { id := "1", invoice_number := "RS-2024-0001",
    created_at := "2024-05-17 10:00:00", invoice_date := "2024-05-17",
    customer_name := "A", customer_phone := "", customer_address := "",
    customer_gstin := "", items := [], subtotal := 0, discount := 0, tax := 0,
    total := 0, payment_mode := some "CREDIT", payment_reference := "",
    notes := "" }

/-- After replacing the first id-match, the first id-match is the
replacement. -/
theorem find?_replaceFirst (invoices : List Invoice) (iid : String)
    (inv inv2 : Invoice) (h : invoices.find? (fun i => i.id == iid) = some inv)
    (h2 : inv2.id = iid) :
    (replaceFirst invoices iid inv2).find? (fun i => i.id == iid)
      = some inv2 := by
  induction invoices with
  | nil => simp [List.find?] at h
  | cons a rest ih =>
    cases ha : (a.id == iid) with
    | true =>
      simp only [replaceFirst, ha, if_true]
      simp [List.find?, h2]
    | false =>
      simp only [List.find?, ha] at h
      simp only [replaceFirst, ha, Bool.false_eq_true, if_false, List.find?]
      exact ih h

/-- Conversion on a found invoice whose uppercased payment mode is not CREDIT
is rejected without touching the list. -/
theorem convert_on_nonCredit (invoices : List Invoice) (iid ts : String)
    (inv : Invoice)
    (hfind : invoices.find? (fun i => i.id == iid) = some inv)
    (hmode : (pyUpper (inv.payment_mode.getD "") == "CREDIT") = false) :
    convert_credit_to_cash invoices iid ts
      = (ConvertOutcome.invalidState, invoices) := by
  simp [convert_credit_to_cash, hfind, hmode]

/-- C5 (amended): conversion on an id that is found but whose payment mode is
not CREDIT (case-insensitively) is rejected as invalid-state — an outcome
distinct from not-found — and leaves the invoice list unchanged; on a CREDIT
invoice the mode becomes CASH and the conversion note is appended to the
trimmed existing notes, newline-separated when the trimmed notes are
non-empty; a second conversion of the same invoice is rejected and leaves the
list (hence the notes) unchanged, so the note accumulates only once. -/
theorem C5_convert_credit_to_cash (invoices : List Invoice)
    (iid ts ts2 : String) :
    (invoices.find? (fun i => i.id == iid) = none →
      convert_credit_to_cash invoices iid ts
        = (ConvertOutcome.notFound, invoices)) ∧
    (∀ inv, invoices.find? (fun i => i.id == iid) = some inv →
      (pyUpper (inv.payment_mode.getD "") ≠ "CREDIT" →
        convert_credit_to_cash invoices iid ts
          = (ConvertOutcome.invalidState, invoices)) ∧
      (pyUpper (inv.payment_mode.getD "") = "CREDIT" →
        convert_credit_to_cash invoices iid ts
          = (ConvertOutcome.converted, replaceFirst invoices iid
              { inv with
                  payment_mode := some "CASH",
                  notes := if pyStrip inv.notes == "" then conversionNote ts
                    else pyStrip inv.notes ++ "\n" ++ conversionNote ts }) ∧
        convert_credit_to_cash (convert_credit_to_cash invoices iid ts).2 iid ts2
          = (ConvertOutcome.invalidState,
             (convert_credit_to_cash invoices iid ts).2))) ∧
    ConvertOutcome.invalidState ≠ ConvertOutcome.notFound := by
  refine ⟨?_, ?_, by simp⟩
  · intro h
    simp [convert_credit_to_cash, h]
  · intro inv hfind
    constructor
    · intro hne
      have hb : (pyUpper (inv.payment_mode.getD "") == "CREDIT") = false := by
        simpa using hne
      simp [convert_credit_to_cash, hfind, hb]
    · intro heq
      have hb : (pyUpper (inv.payment_mode.getD "") == "CREDIT") = true := by
        simpa using heq
      have hid : inv.id = iid := by
        have := List.find?_some hfind
        simpa using this
      have hconv : convert_credit_to_cash invoices iid ts
          = (ConvertOutcome.converted, replaceFirst invoices iid
              { inv with
                  payment_mode := some "CASH",
                  notes := if pyStrip inv.notes == "" then conversionNote ts
                    else pyStrip inv.notes ++ "\n" ++ conversionNote ts }) := by
        simp [convert_credit_to_cash, hfind, hb]
      refine ⟨hconv, ?_⟩
      rw [hconv]
      have hfind2 := find?_replaceFirst invoices iid inv
        { inv with
            payment_mode := some "CASH",
            notes := if pyStrip inv.notes == "" then conversionNote ts
              else pyStrip inv.notes ++ "\n" ++ conversionNote ts } hfind hid
      have hup : (pyUpper
          (({ inv with
              payment_mode := some "CASH",
              notes := if pyStrip inv.notes == "" then conversionNote ts
                else pyStrip inv.notes ++ "\n" ++ conversionNote ts } :
            Invoice).payment_mode.getD "") == "CREDIT") = false := by
        show (pyUpper ((some "CASH").getD "") == "CREDIT") = false
        decide
      exact convert_on_nonCredit _ iid ts2 _ hfind2 hup

/-- Concrete check of C5 (amended): a CREDIT invoice with notes "x" converts
once and the second call is rejected without change. -/
theorem C5_convert_credit_to_cash_witness :
    (convert_credit_to_cash [{ sampleInvoice with notes := "x" }] "1" "T1"
      = (ConvertOutcome.converted,
         [{ sampleInvoice with
              payment_mode := some "CASH",
              notes := "x\n" ++ conversionNote "T1" }])) ∧
    (convert_credit_to_cash
        (convert_credit_to_cash [{ sampleInvoice with notes := "x" }] "1" "T1").2
        "1" "T2"
      = (ConvertOutcome.invalidState,
         (convert_credit_to_cash [{ sampleInvoice with notes := "x" }] "1"
           "T1").2)) := by
  have h := ((C5_convert_credit_to_cash
      [{ sampleInvoice with notes := "x" }] "1" "T1" "T2").2.1
      { sampleInvoice with notes := "x" } rfl).2 (by decide)
  exact ⟨h.1.trans (by decide), h.2⟩

/-- C5 fails exactly as stated: for a CREDIT invoice whose notes are a single
space — non-empty notes — the stored notes after conversion are the bare
conversion note, not the newline-separated append of the note to the existing
notes that the claim promises for non-empty notes. -/
theorem C5_counterexample :
    let inv : Invoice := { sampleInvoice with notes := " " }
    let r := convert_credit_to_cash [inv] "1" "2024-01-02 03:04:05"
    inv.notes ≠ "" ∧
    r.1 = ConvertOutcome.converted ∧
    (r.2.headD inv).notes = conversionNote "2024-01-02 03:04:05" ∧
    (r.2.headD inv).notes
      ≠ inv.notes ++ "\n" ++ conversionNote "2024-01-02 03:04:05" := by
  intro inv r
  refine ⟨by decide, rfl, rfl, by decide⟩

/-- Deleting an id that no invoice carries changes nothing and does not
persist. -/
theorem delete_invoice_not_found (invoices : List Invoice) (iid : String)
    (h : ∀ inv ∈ invoices, inv.id ≠ iid) :
    delete_invoice invoices iid = (invoices, false) := by
  induction invoices with
  | nil => rfl
  | cons a rest ih =>
    have ha : (a.id == iid) = false := by
      simpa using h a (List.mem_cons_self a rest)
    simp [delete_invoice, ha,
      ih (fun inv hi => h inv (List.mem_cons_of_mem a hi))]

/-- Deleting removes exactly the first id-match. -/
theorem delete_invoice_found (iid : String) (pre : List Invoice)
    (inv : Invoice) (post : List Invoice) (hpre : ∀ i ∈ pre, i.id ≠ iid)
    (hinv : inv.id = iid) :
    delete_invoice (pre ++ inv :: post) iid = (pre ++ post, true) := by
  induction pre with
  | nil => simp [delete_invoice, hinv]
  | cons a rest ih =>
    have ha : (a.id == iid) = false := by
      simpa using hpre a (List.mem_cons_self a rest)
    simp [delete_invoice, ha,
      ih (fun i hi => hpre i (List.mem_cons_of_mem a hi))]

/-- C6: deleting by an id that matches no stored invoice leaves the
collection unchanged and reports false (no persist); otherwise exactly the
first matching invoice is removed and true (persisted) is reported. -/
theorem C6_delete_invoice (invoices : List Invoice) (iid : String) :
    ((∀ inv ∈ invoices, inv.id ≠ iid) →
      delete_invoice invoices iid = (invoices, false)) ∧
    (∀ pre inv post, invoices = pre ++ inv :: post →
      (∀ i ∈ pre, i.id ≠ iid) → inv.id = iid →
      delete_invoice invoices iid = (pre ++ post, true)) := by
  refine ⟨delete_invoice_not_found invoices iid, ?_⟩
  intro pre inv post heq h1 h2
  rw [heq]
  exact delete_invoice_found iid pre inv post h1 h2

/-- Concrete check of C6: deleting a missing id is a no-op reporting false;
deleting a present id removes that invoice and reports true. -/
theorem C6_delete_invoice_witness :
    delete_invoice [sampleInvoice] "2" = ([sampleInvoice], false) ∧
    delete_invoice [sampleInvoice] "1" = ([], true) := by
  refine ⟨(C6_delete_invoice [sampleInvoice] "2").1 ?_, ?_⟩
  · intro inv hi
    have h : inv = sampleInvoice := by simpa using hi
    rw [h]
    decide
  · have h := (C6_delete_invoice [sampleInvoice] "1").2 [] sampleInvoice []
      rfl (by simp) rfl
    simpa using h

/-! ### C7: totals and narrative -/

/-- C7: for the report built over the filtered sets, `sales_total` is the sum
of the invoice totals, `expenses_total` the sum of the expense amounts,
`net_total` their difference; with no activity at all the narrative is the
fixed no-activity string, and otherwise it is the templated sentence whose
trend word is "profitable", "loss-making" or "balanced" exactly as the net is
positive, negative or zero, followed by the recommendation chosen by whether
any expenses were recorded. -/
theorem C7_report_aggregation (label : String) (invs : List Invoice)
    (exps : List Expense) :
    (buildReport label invs exps).sales_total = (invs.map Invoice.total).sum ∧
    (buildReport label invs exps).expenses_total
      = (exps.map Expense.amount).sum ∧
    (buildReport label invs exps).net_total
      = (buildReport label invs exps).sales_total
        - (buildReport label invs exps).expenses_total ∧
    (buildReport label invs exps).invoice_count = invs.length ∧
    (buildReport label invs exps).expense_count = exps.length ∧
    ((invs = [] ∧ exps = []) → (buildReport label invs exps).ai_summary
        = "No financial activity recorded for this period.") ∧
    (¬(invs = [] ∧ exps = []) →
      ((0 < (buildReport label invs exps).net_total →
        (buildReport label invs exps).ai_summary
          = summarySentence label (buildReport label invs exps).sales_total
              invs.length (buildReport label invs exps).expenses_total
              "profitable" (buildReport label invs exps).net_total
            ++ recommendationSentence
                (buildReport label invs exps).expenses_total) ∧
      ((buildReport label invs exps).net_total < 0 →
        (buildReport label invs exps).ai_summary
          = summarySentence label (buildReport label invs exps).sales_total
              invs.length (buildReport label invs exps).expenses_total
              "loss-making" (buildReport label invs exps).net_total
            ++ recommendationSentence
                (buildReport label invs exps).expenses_total) ∧
      ((buildReport label invs exps).net_total = 0 →
        (buildReport label invs exps).ai_summary
          = summarySentence label (buildReport label invs exps).sales_total
              invs.length (buildReport label invs exps).expenses_total
              "balanced" (buildReport label invs exps).net_total
            ++ recommendationSentence
                (buildReport label invs exps).expenses_total))) := by
  refine ⟨rfl, rfl, rfl, rfl, rfl, ?_, ?_⟩
  · rintro ⟨rfl, rfl⟩
    rfl
  · intro h
    have hc : (invs.length == 0 && exps.length == 0) = false := by
      rcases invs with _ | ⟨a, l⟩
      · rcases exps with _ | ⟨b, m⟩
        · exact absurd ⟨rfl, rfl⟩ h
        · rfl
      · rfl
    refine ⟨?_, ?_, ?_⟩ <;> intro hnet <;>
      simp only [buildReport] at hnet ⊢ <;>
      simp only [hc, Bool.false_eq_true, if_false]
    · rw [if_pos hnet]
    · rw [if_neg (by linarith), if_pos hnet]
    · rw [if_neg (by linarith), if_neg (by linarith)]

/-- Concrete check of C7: one invoice of total 500 and one expense of 200 in
the filtered sets give a profitable narrative, and empty filtered sets give
the no-activity narrative. -/
theorem C7_report_aggregation_witness :
    (buildReport "L" [] []).ai_summary
      = "No financial activity recorded for this period." ∧
    (buildReport "L" [{ sampleInvoice with total := 500 }]
        [{ id := "1", date := "2024-03-15", description := "rent",
           category := "", amount := 200 }]).ai_summary
      = summarySentence "L"
          (buildReport "L" [{ sampleInvoice with total := 500 }]
            [{ id := "1", date := "2024-03-15", description := "rent",
               category := "", amount := 200 }]).sales_total 1
          (buildReport "L" [{ sampleInvoice with total := 500 }]
            [{ id := "1", date := "2024-03-15", description := "rent",
               category := "", amount := 200 }]).expenses_total
          "profitable"
          (buildReport "L" [{ sampleInvoice with total := 500 }]
            [{ id := "1", date := "2024-03-15", description := "rent",
               category := "", amount := 200 }]).net_total
        ++ recommendationSentence
            (buildReport "L" [{ sampleInvoice with total := 500 }]
              [{ id := "1", date := "2024-03-15", description := "rent",
                 category := "", amount := 200 }]).expenses_total := by
  have h0 := (C7_report_aggregation "L" [] []).2.2.2.2.2.1 ⟨rfl, rfl⟩
  have h := (C7_report_aggregation "L" [{ sampleInvoice with total := 500 }]
      [{ id := "1", date := "2024-03-15", description := "rent",
         category := "", amount := 200 }]).2.2.2.2.2.2
    (by simp) |>.1 (by simp [buildReport]; norm_num)
  exact ⟨h0, h⟩

/-! ### C8: the monthly filter -/

/-- The date string of a month-filter candidate parses into the target year
and month exactly when `inMonth` accepts it. -/
theorem inMonth_iff (s : String) (y m : Nat) :
    inMonth s y m = true
      ↔ ∃ d, parseDate s = some d ∧ d.year = y ∧ d.month = m := by
  cases h : parseDate s with
  | none => simp [inMonth, h]
  | some d => simp [inMonth, h, and_assoc]

/-- The empty date string never parses. -/
theorem parseDate_empty_string : parseDate "" = none := rfl

/-- C8: the monthly filters keep exactly the invoices whose effective date
(invoice_date when non-empty, else the date part of created_at) parses into
the selected year and month — any day — and the expenses whose date does;
entries whose dates are missing or unparsable are excluded without error.
The monthly report view is built over exactly these filtered sets. -/
theorem C8_monthly_filter (invoices : List Invoice) (expenses : List Expense)
    (y m : Nat) :
    (∀ inv, inv ∈ monthlyInvFilter invoices y m ↔
      inv ∈ invoices ∧ ∃ d, parseDate (effective_date_str inv) = some d ∧
        d.year = y ∧ d.month = m) ∧
    (∀ e, e ∈ monthlyExpFilter expenses y m ↔
      e ∈ expenses ∧ ∃ d, parseDate e.date = some d ∧
        d.year = y ∧ d.month = m) ∧
    (∀ todayD argDate sm, parseYM sm = some (y, m) → (sm == "") = false →
      (reports invoices expenses todayD (some "monthly") argDate
          (some sm)).report.invoices = monthlyInvFilter invoices y m ∧
      (reports invoices expenses todayD (some "monthly") argDate
          (some sm)).report.expenses = monthlyExpFilter expenses y m) := by
  refine ⟨?_, ?_, ?_⟩
  · intro inv
    simp [monthlyInvFilter, List.mem_filter, inMonth_iff]
  · intro e
    simp only [monthlyExpFilter, List.mem_filter]
    constructor
    · rintro ⟨he, hp⟩
      refine ⟨he, ?_⟩
      by_cases hd : (e.date == "") = true
      · rw [if_pos hd] at hp
        exact absurd hp (by simp)
      · rw [if_neg hd] at hp
        exact (inMonth_iff e.date y m).mp hp
    · rintro ⟨he, d, hd, hy, hm⟩
      refine ⟨he, ?_⟩
      have hne : ¬((e.date == "") = true) := by
        intro hcon
        have : e.date = "" := by simpa using hcon
        rw [this, parseDate_empty_string] at hd
        cases hd
      rw [if_neg hne]
      exact (inMonth_iff e.date y m).mpr ⟨d, hd, hy, hm⟩
  · intro todayD argDate sm hym hsm
    constructor
    · simp [reports, orDefault, hsm, hym, buildReport]
    · simp [reports, orDefault, hsm, hym, buildReport]

/-- Concrete check of C8: for March 2024, an invoice dated 2024-03-05 by its
invoice_date is kept, and the monthly report view for selected month
"2024-03" is built over the filtered sets. -/
theorem C8_monthly_filter_witness :
    ({ sampleInvoice with invoice_date := "2024-03-05" }
      ∈ monthlyInvFilter [{ sampleInvoice with invoice_date := "2024-03-05" }]
          2024 3) ∧
    (reports [] [] ⟨2024, 5, 17⟩ (some "monthly") none
        (some "2024-03")).report.invoices = monthlyInvFilter [] 2024 3 ∧
    (reports [] [] ⟨2024, 5, 17⟩ (some "monthly") none
        (some "2024-03")).report.expenses = monthlyExpFilter [] 2024 3 := by
  have h1 := ((C8_monthly_filter
      [{ sampleInvoice with invoice_date := "2024-03-05" }] [] 2024 3).1
      { sampleInvoice with invoice_date := "2024-03-05" }).mpr
    ⟨List.Mem.head _, ⟨2024, 3, 5⟩, by decide, rfl, rfl⟩
  have h2 := (C8_monthly_filter [] [] 2024 3).2.2 ⟨2024, 5, 17⟩ none "2024-03"
    (by decide) (by decide)
  exact ⟨h1, h2.1, h2.2⟩

/-! ### C1: substitution and echo of unparsable report dates -/

/-- C1 fails as stated: a monthly report request with the unparsable month
"bogus" (on a wall-clock date in May 2024) substitutes the current year and
month for the report itself — its label is "2024-05 (Monthly)" — but echoes
the original "bogus" back to the caller instead of the substituted value. -/
theorem C1_counterexample :
    parseYM "bogus" = none ∧
    (reports [] [] ⟨2024, 5, 17⟩ (some "monthly") none
        (some "bogus")).report.label = "2024-05 (Monthly)" ∧
    (reports [] [] ⟨2024, 5, 17⟩ (some "monthly") none
        (some "bogus")).selected_month = "bogus" ∧
    (reports [] [] ⟨2024, 5, 17⟩ (some "monthly") none
        (some "bogus")).selected_month ≠ "2024-05" := by
  exact ⟨rfl, by decide, rfl, by decide⟩

/-- C1 (amended): a daily report request whose date fails to parse substitutes
today for the filter and the label and echoes the substituted date back; a
monthly request whose month fails to parse substitutes the current year and
month for the filter and the label, but echoes the original unparsable input
back unchanged. -/
theorem C1_substituted_date_echo (invoices : List Invoice)
    (expenses : List Expense) (todayD : Date)
    (argPeriod argDate argMonth : Option String) :
    (orDefault argPeriod "daily" ≠ "monthly" →
      parseDate (orDefault argDate (formatDate todayD)) = none →
      (reports invoices expenses todayD argPeriod argDate
          argMonth).selected_date = formatDate todayD ∧
      (reports invoices expenses todayD argPeriod argDate
          argMonth).report.label = formatDate todayD ++ " (Daily)" ∧
      (reports invoices expenses todayD argPeriod argDate
          argMonth).report.invoices = dailyInvFilter invoices todayD) ∧
    (orDefault argPeriod "daily" = "monthly" →
      parseYM (orDefault argMonth
          (pad4 todayD.year ++ "-" ++ pad2 todayD.month)) = none →
      (reports invoices expenses todayD argPeriod argDate
          argMonth).selected_month
        = orDefault argMonth (pad4 todayD.year ++ "-" ++ pad2 todayD.month) ∧
      (reports invoices expenses todayD argPeriod argDate
          argMonth).report.label
        = toString todayD.year ++ "-" ++ pad2 todayD.month ++ " (Monthly)" ∧
      (reports invoices expenses todayD argPeriod argDate
          argMonth).report.invoices
        = monthlyInvFilter invoices todayD.year todayD.month) := by
  constructor
  · intro hp hd
    have hb : (orDefault argPeriod "daily" == "monthly") = false := by
      simpa using hp
    refine ⟨?_, ?_, ?_⟩ <;> simp [reports, hb, hd, buildReport]
  · intro hp hm
    have hb : (orDefault argPeriod "daily" == "monthly") = true := by
      simpa using hp
    refine ⟨?_, ?_, ?_⟩ <;> simp [reports, hb, hm, buildReport]

/-- Concrete check of C1 (amended): daily with the unparsable date "junk"
echoes the substituted today; monthly with the unparsable month "bogus" keeps
the label and filter on the current month while echoing "bogus". -/
theorem C1_substituted_date_echo_witness :
    ((reports [] [] ⟨2024, 5, 17⟩ none (some "junk") none).selected_date
        = formatDate ⟨2024, 5, 17⟩ ∧
      (reports [] [] ⟨2024, 5, 17⟩ none (some "junk") none).report.label
        = formatDate ⟨2024, 5, 17⟩ ++ " (Daily)" ∧
      (reports [] [] ⟨2024, 5, 17⟩ none (some "junk") none).report.invoices
        = dailyInvFilter [] ⟨2024, 5, 17⟩) ∧
    ((reports [] [] ⟨2024, 5, 17⟩ (some "monthly") none
          (some "bogus")).selected_month
        = orDefault (some "bogus") (pad4 2024 ++ "-" ++ pad2 5) ∧
      (reports [] [] ⟨2024, 5, 17⟩ (some "monthly") none
          (some "bogus")).report.label
        = toString 2024 ++ "-" ++ pad2 5 ++ " (Monthly)" ∧
      (reports [] [] ⟨2024, 5, 17⟩ (some "monthly") none
          (some "bogus")).report.invoices = monthlyInvFilter [] 2024 5) := by
  have hd := (C1_substituted_date_echo [] [] ⟨2024, 5, 17⟩ none (some "junk")
      none).1 (by decide) (by decide)
  have hm := (C1_substituted_date_echo [] [] ⟨2024, 5, 17⟩ (some "monthly")
      none (some "bogus")).2 (by decide) (by decide)
  exact ⟨hd, hm⟩

end RSanju
